import Mathlib

/-!
Formal model of the webviz ANSI log viewer (src/webviz/ansi.py and
src/webviz/server.py): the ANSI SGR escape-code interpreter, the xterm-256
color conversion, the frame-header recognizer and frame splitter, the metric
extractor, the jsonl index loader, the frame store, and the boundary
operations (load, get-frame, export-gif).  Strings are modelled as lists of
characters, Python integers as `Int`/`Nat`, Python `float` values reaching the
gif-duration computation as exact rationals, fallible operations as
`Option`/`Except`.  Rasterization (PIL bitmaps) is kept abstract: exported
frames carry the raw frame text from which each bitmap is rendered.
-/

set_option autoImplicit false

namespace Webviz

/-! ### Small Python-style string utilities -/

/-- Python `str.isspace` characters used by `str.strip` / `\s`. -/
def isPySpace (c : Char) : Bool :=
  c = ' ' ∨ c = '\t' ∨ c = '\n' ∨ c = '\r' ∨ c = '\x0b' ∨ c = '\x0c'

/-- Python `str.strip()`. -/
def pyStrip (l : List Char) : List Char :=
  ((l.dropWhile isPySpace).reverse.dropWhile isPySpace).reverse

/-- Python `str.rstrip()`. -/
def pyRstrip (l : List Char) : List Char :=
  (l.reverse.dropWhile isPySpace).reverse

/-- ASCII lower-casing, as applied by `str.lower` on the ASCII texts involved. -/
def toLowerA (c : Char) : Char :=
  if 'A' ≤ c ∧ c ≤ 'Z' then Char.ofNat (c.toNat + 32) else c

/-- Python `str.lower()` on ASCII text. -/
def pyLower (l : List Char) : List Char := l.map toLowerA

/-- Worker for `pySplitlines`; `acc` is the current line, reversed. -/
def splitlinesGo : List Char → List Char → List (List Char)
  | [], acc => if acc = [] then [] else [acc.reverse]
  | '\r' :: '\n' :: rest, acc => acc.reverse :: splitlinesGo rest []
  | '\r' :: rest, acc => acc.reverse :: splitlinesGo rest []
  | '\n' :: rest, acc => acc.reverse :: splitlinesGo rest []
  | c :: rest, acc => splitlinesGo rest (c :: acc)

/-- Python `str.splitlines()` for the line separators used by these logs. -/
def pySplitlines (l : List Char) : List (List Char) := splitlinesGo l []

/-- `"\n".join(lines)`. -/
def joinNL : List (List Char) → List Char
  | [] => []
  | [l] => l
  | l :: l2 :: rest => l ++ '\n' :: joinNL (l2 :: rest)

/-- Does `s` start with `pat` (exact characters)? -/
def listStartsWith : List Char → List Char → Bool
  | [], _ => true
  | _ :: _, [] => false
  | p :: ps, c :: cs => p = c && listStartsWith ps cs

/-- Python `pat in hay` substring test. -/
def containsSub (pat : List Char) : List Char → Bool
  | [] => listStartsWith pat []
  | c :: t => listStartsWith pat (c :: t) || containsSub pat t

/-- `int(p)` on a string of decimal digits. -/
def natOfDigits (l : List Char) : Nat :=
  l.foldl (fun a c => a * 10 + (c.toNat - 48)) 0

/-- Safe positional lookup, `l[n]` when `0 ≤ n < len(l)`. -/
def nth? {α : Type} : List α → Nat → Option α
  | [], _ => none
  | a :: _, 0 => some a
  | _ :: t, n + 1 => nth? t n

/-- Python list indexing `l[i]` with negative-index wraparound;
`none` models `IndexError`. -/
def pyIndex {α : Type} (l : List α) (i : Int) : Option α :=
  if 0 ≤ i then nth? l i.toNat
  else if 0 ≤ i + l.length then nth? l (i + l.length).toNat
  else none

/-- `l[-1]`-style last element, `l[len(l)-1]`. -/
def lastElem? {α : Type} (l : List α) : Option α := nth? l (l.length - 1)

/-! ### Color model (`ansi.py`: `xterm_256_to_hex`, `BASIC_COLORS`, `BASIC_BG`) -/

/-- The lowercase hex digit for `d < 16`, as produced by Python `"%02x"`. -/
def hexDigitChar (d : Nat) : Char :=
  if d < 10 then Char.ofNat (48 + d) else Char.ofNat (87 + d)

/-- Python `f"{v:02x}"` for `v ≤ 255` (all values formatted by the source). -/
def hex2 (v : Nat) : String :=
  ⟨[hexDigitChar (v / 16 % 16), hexDigitChar (v % 16)]⟩

/-- The `LUT` system-color table inside `xterm_256_to_hex`, keyed 0..15 in
order. -/
def lutSystem : List String :=
  ["#000000", "#800000", "#008000", "#808000",
   "#000080", "#800080", "#008080", "#c0c0c0",
   "#808080", "#ff0000", "#00ff00", "#ffff00",
   "#0000ff", "#ff00ff", "#00ffff", "#ffffff"]

/-- `LUT.get(n, "#cccccc")`: the table holds exactly the keys 0..15. -/
def lut16 (n : Int) : String :=
  if 0 ≤ n ∧ n < 16 then (nth? lutSystem n.toNat).getD "#cccccc" else "#cccccc"

/-- `to_255 = lambda v: 0 if v == 0 else 55 + v * 40` from the source. -/
def to255 (v : Nat) : Nat := if v = 0 then 0 else 55 + v * 40

/-- `xterm_256_to_hex`: xterm-256 color code to `"#rrggbb"`. -/
def xterm_256_to_hex (n : Int) : String :=
  if n < 16 then lut16 n
  else if 16 ≤ n ∧ n ≤ 231 then
    -- n -= 16; r = (n // 36) % 6; g = (n // 6) % 6; b = n % 6
    hexOfCube (n - 16).toNat
  else if 232 ≤ n ∧ n ≤ 255 then
    hexOfGray (8 + (n - 232).toNat * 10)
  else "#cccccc"
where
  hexOfCube (m : Nat) : String :=
    "#" ++ hex2 (to255 (m / 36 % 6)) ++ hex2 (to255 (m / 6 % 6)) ++ hex2 (to255 (m % 6))
  hexOfGray (v : Nat) : String :=
    "#" ++ hex2 v ++ hex2 v ++ hex2 v

/-- `BASIC_COLORS`: 16-color foreground table (keys 30–37 and 90–97). -/
def BASIC_COLORS (c : Nat) : Option String :=
  if c = 30 then some "#000000" else if c = 31 then some "#b22222"
  else if c = 32 then some "#228b22" else if c = 33 then some "#b8860b"
  else if c = 34 then some "#1e90ff" else if c = 35 then some "#9932cc"
  else if c = 36 then some "#20b2aa" else if c = 37 then some "#bfbfbf"
  else if c = 90 then some "#808080" else if c = 91 then some "#ff4d4d"
  else if c = 92 then some "#59c659" else if c = 93 then some "#ffd24d"
  else if c = 94 then some "#4d88ff" else if c = 95 then some "#cc66ff"
  else if c = 96 then some "#33cccc" else if c = 97 then some "#ffffff"
  else none

/-- `BASIC_BG`: backgrounds 40–47 shifted from `BASIC_COLORS`, bright
backgrounds 100–107 overridden by the explicit update. -/
def BASIC_BG (c : Nat) : Option String :=
  if 40 ≤ c ∧ c ≤ 47 then BASIC_COLORS (c - 10)
  else if c = 100 then some "#555555" else if c = 101 then some "#ff6b6b"
  else if c = 102 then some "#6bd36b" else if c = 103 then some "#ffe27a"
  else if c = 104 then some "#7aa7ff" else if c = 105 then some "#da8cff"
  else if c = 106 then some "#66e0e0" else if c = 107 then some "#f7f7f7"
  else none

/-! Spec-side restatements used by the claims about the color model. -/

/-- Claim-side channel map: digit `0 → 0`, digit `v > 0 → 55 + 40*v`. -/
def cubeChannel (v : Nat) : Nat := if v = 0 then 0 else 55 + 40 * v

/-- `"#rrggbb"` rendering of a composed 24-bit RGB value. -/
def rgbHex (v : Nat) : String :=
  "#" ++ hex2 (v / 65536 % 256) ++ hex2 (v / 256 % 256) ++ hex2 (v % 256)

/-- Is `s` a well-formed color string: `'#'` followed by exactly six lowercase
hexadecimal digits? -/
def isHexLower (c : Char) : Bool :=
  (48 ≤ c.toNat && c.toNat ≤ 57) || (97 ≤ c.toNat && c.toNat ≤ 102)

/-- Well-formedness of a `"#rrggbb"` color string. -/
def wellFormedHexColor (s : String) : Bool :=
  s.data.length = 7 && listStartsWith ['#'] s.data && (s.data.drop 1).all isHexLower

/-! ### Escape-code interpreter (`ansi.py`: `SGR_RE`, `parse_ansi_to_spans`)

The regex `\x1b\[([0-9;]*)m` is modelled by `tokenize`: a scan over the line
that recognizes each non-overlapping leftmost match (ESC, `[`, a maximal run
of digits/semicolons, `m`) as a `code` token and every other character as a
`chr` token, exactly as `re.finditer` does on this pattern. -/

/-- One lexical unit of a line: a plain character, or the parameter text of
one SGR control sequence. -/
inductive Tok where
  | chr (c : Char)
  | code (ps : List Char)
deriving DecidableEq

/-- A character allowed in the parameter part of `SGR_RE` (`[0-9;]`). -/
def isParamChar (c : Char) : Bool := c.isDigit || c = ';'

/-- After `ESC [`, take the maximal `[0-9;]*` run; succeed only if the next
character is the terminating `m`. -/
def paramSplit (l : List Char) : Option (List Char × List Char) :=
  match l.dropWhile isParamChar with
  | c :: r => if c = 'm' then some (l.takeWhile isParamChar, r) else none
  | [] => none

/-- Lexer worker: one fuel unit is spent per scan position (each recursive
call drops at least one character, so `fuel = length` never runs out). -/
def tokenizeF : Nat → List Char → List Tok
  | 0, _ => []
  | _ + 1, [] => []
  | fuel + 1, c :: rest =>
    if c = '\x1b' then
      match rest with
      | r1 :: rest2 =>
        if r1 = '[' then
          match paramSplit rest2 with
          | some (ps, r) => .code ps :: tokenizeF fuel r
          | none => .chr c :: tokenizeF fuel (r1 :: rest2)
        else .chr c :: tokenizeF fuel (r1 :: rest2)
      | [] => .chr c :: tokenizeF fuel []
    else .chr c :: tokenizeF fuel rest

/-- Lexer for the line: models `SGR_RE.finditer` over the input. -/
def tokenize (s : List Char) : List Tok := tokenizeF s.length s

/-- The plain text a token contributes (codes are removed). -/
def tokText : Tok → List Char
  | .chr c => [c]
  | .code _ => []

/-- Concatenated plain text of a token list. -/
def toksText : List Tok → List Char
  | [] => []
  | t :: ts => tokText t ++ toksText ts

/-- `SGR_RE.sub("", s)`: the line with every control sequence removed. -/
def stripSGR (s : List Char) : List Char := toksText (tokenize s)

/-- `visual_len` from the source: length after stripping ANSI codes. -/
def visual_len (s : List Char) : Nat := (stripSGR s).length

/-- `Style`: bold flag plus optional foreground/background colors. -/
structure Style where
  bold : Bool := false
  fg : Option String := none
  bg : Option String := none
deriving DecidableEq

/-- `Span`: a run of text with one style. -/
structure Span where
  text : String
  style : Style
deriving DecidableEq

/-- Parser state: emitted spans, the accumulation buffer, the current style. -/
structure PState where
  spans : List Span
  buf : List Char
  cur : Style
deriving DecidableEq

/-- `flush()`: emit the buffer as a span (if non-empty) with the current
style, and clear it. -/
def flushSt (st : PState) : PState :=
  if st.buf = [] then st
  else ⟨st.spans ++ [⟨⟨st.buf⟩, st.cur⟩], [], st.cur⟩

/-- `codes.split(";")` on the parameter characters. -/
def splitSemis : List Char → List (List Char)
  | [] => [[]]
  | c :: rest =>
    if c = ';' then [] :: splitSemis rest
    else match splitSemis rest with
      | ps :: tl => (c :: ps) :: tl
      | [] => [[c]]

/-- `[int(p) for p in codes.split(";") if p.isdigit()]`. -/
def parseParts (ps : List Char) : List Nat :=
  (splitSemis ps).filterMap fun p =>
    if p ≠ [] ∧ p.all Char.isDigit then some (natOfDigits p) else none

/-- The `j + 2 < len(parts) and parts[j+1] == 5` lookahead of the extended
color branches: the palette selector `5` and the palette index following the
marker, when both are present. -/
def extParam : List Nat → Option (Nat × List Nat)
  | 5 :: nn :: rest2 => some (nn, rest2)
  | _ => none

/-- Worker for the `while j < len(parts)` interpretation loop of
`parse_ansi_to_spans`: each SGR parameter is applied in order; `38;5;n` /
`48;5;n` consume two extra parameters; anything unrecognized is ignored.
One fuel unit is spent per parameter, so `fuel = length` never runs out. -/
def applyCodesF : Nat → List Nat → PState → PState
  | 0, _, st => st
  | _ + 1, [], st => st
  | fuel + 1, c :: rest, st =>
    if c = 0 then
      applyCodesF fuel rest { flushSt st with cur := {} }
    else if c = 1 then
      applyCodesF fuel rest (let st1 := flushSt st; { st1 with cur := { st1.cur with bold := true } })
    else if (30 ≤ c ∧ c ≤ 37) ∨ (90 ≤ c ∧ c ≤ 97) then
      applyCodesF fuel rest (let st1 := flushSt st;
        { st1 with cur := { st1.cur with fg :=
            (match BASIC_COLORS c with
             | some col => some col
             | none => st1.cur.fg) } })
    else if (40 ≤ c ∧ c ≤ 47) ∨ (100 ≤ c ∧ c ≤ 107) then
      applyCodesF fuel rest (let st1 := flushSt st;
        { st1 with cur := { st1.cur with bg :=
            (match BASIC_BG c with
             | some col => some col
             | none => st1.cur.bg) } })
    else if c = 38 then
      match extParam rest with
      | some (nn, rest2) =>
        applyCodesF fuel rest2 (let st1 := flushSt st;
          { st1 with cur := { st1.cur with fg := some (xterm_256_to_hex nn) } })
      | none => applyCodesF fuel rest st
    else if c = 48 then
      match extParam rest with
      | some (nn, rest2) =>
        applyCodesF fuel rest2 (let st1 := flushSt st;
          { st1 with cur := { st1.cur with bg := some (xterm_256_to_hex nn) } })
      | none => applyCodesF fuel rest st
    else applyCodesF fuel rest st

/-- The `while j < len(parts)` interpretation loop over a full parameter
list. -/
def applyCodes (l : List Nat) (st : PState) : PState := applyCodesF l.length l st

/-- Process one token: plain text goes to the buffer; an empty or `"0"`
parameter list is the fast reset path; otherwise the parameters are applied
in sequence. -/
def stepTok (st : PState) : Tok → PState
  | .chr c => { st with buf := st.buf ++ [c] }
  | .code ps =>
    if ps = [] ∨ ps = ['0'] then { flushSt st with cur := {} }
    else applyCodes (parseParts ps) st

/-- `parse_ansi_to_spans`: ANSI SGR codes to an ordered list of styled runs. -/
def parse_ansi_to_spans (s : List Char) : List Span :=
  (flushSt ((tokenize s).foldl stepTok ⟨[], [], {}⟩)).spans

/-- Is this token a plain character (not a control sequence)? -/
def isChrTok : Tok → Bool
  | .chr _ => true
  | .code _ => false

/-- `(tokenize s)` has no control-sequence token: the line contains no
control sequence. -/
def noCtrl (s : List Char) : Bool := (tokenize s).all isChrTok

/-! ### HTML rendering (`ansi.py`: `ansi_to_html`) -/

/-- `html.escape` (with the default quoting) applied per character. -/
def htmlEscapeChar (c : Char) : List Char :=
  if c = '&' then "&amp;".data
  else if c = '<' then "&lt;".data
  else if c = '>' then "&gt;".data
  else if c = '"' then "&quot;".data
  else if c = '\'' then "&#x27;".data
  else [c]

/-- `html.escape` on a string. -/
def htmlEscape (s : String) : String :=
  ⟨s.data.foldr (fun c acc => htmlEscapeChar c ++ acc) []⟩

/-- The inline `style="..."` attribute built for one span. -/
def styleAttr (st : Style) : String :=
  let bits :=
    (match st.fg with | some c => ["color:" ++ c] | none => []) ++
    (match st.bg with | some c => ["background-color:" ++ c] | none => []) ++
    (if st.bold then ["font-weight:bold"] else [])
  if bits = [] then "" else " style=\"" ++ String.intercalate ";" bits ++ "\""

/-- `ansi_to_html`: ANSI text to HTML spans, lines joined by `<br/>`, empty
lines rendered as `&nbsp;`. -/
def ansi_to_html (s : String) : String :=
  let outLines := (pySplitlines s.data).map fun line =>
    let parts := (parse_ansi_to_spans line).map fun sp =>
      "<span" ++ styleAttr sp.style ++ ">" ++ htmlEscape sp.text ++ "</span>"
    let joined := String.join parts
    if joined = "" then "&nbsp;" else joined
  String.intercalate "<br/>" outLines

/-! ### Frame headers and metrics (`ansi.py`: `STEP_HDR_VARIANTS`,
`is_step_header`, `split_frames_by_headers`, `parse_metrics`)

The two header regexes are deterministic (no backtracking ambiguity: the
character classes of adjacent pieces are disjoint), so each is modelled as a
maximal-munch scanner.  Note the patterns require a literal `ESC [ 0` before
the colon — only the final `m` of the reset is optional (`\x1b\[0m?:`). -/

/-- Consume `pat` case-insensitively (`re.I`); fail without it. -/
def dropLitCI : List Char → List Char → Option (List Char)
  | [], s => some s
  | _ :: _, [] => none
  | p :: ps, c :: cs => if toLowerA c = toLowerA p then dropLitCI ps cs else none

/-- Consume `pat` if present (an optional group before a piece that cannot
start with the group's first character). -/
def optDropCI (pat s : List Char) : List Char := (dropLitCI pat s).getD s

/-- A regex `\s` whitespace character. -/
def isReWs (c : Char) : Bool :=
  c = ' ' ∨ c = '\t' ∨ c = '\n' ∨ c = '\r' ∨ c = '\x0b' ∨ c = '\x0c'

/-- `\s+`: at least one whitespace character, maximal munch. -/
def ws1 (s : List Char) : Option (List Char) :=
  match s with
  | c :: cs => if isReWs c then some (cs.dropWhile isReWs) else none
  | [] => none

/-- `\s*`. -/
def ws0 (s : List Char) : List Char := s.dropWhile isReWs

/-- `(\d+)`: a maximal non-empty run of digits, returned as an integer. -/
def digits1 (s : List Char) : Option (Nat × List Char) :=
  let ds := s.takeWhile Char.isDigit
  if ds = [] then none else some (natOfDigits ds, s.dropWhile Char.isDigit)

/-- Consume one exact character. -/
def dropCh (c : Char) (s : List Char) : Option (List Char) :=
  match s with
  | c2 :: cs => if c2 = c then some cs else none
  | [] => none

/-- Consume one character if it matches case-insensitively (`m?` under
`re.I`); otherwise leave the input unchanged. -/
def optDropChCI (c : Char) (s : List Char) : List Char :=
  match s with
  | c2 :: cs => if toLowerA c2 = c then cs else s
  | [] => s

/-- The part shared by both header variants:
`(?:\x1b\[1m)?Step\s+(\d+)\x1b\[0m?:`. -/
def headerStem (s0 : List Char) : Option (Nat × List Char) := do
  let s := optDropCI ['\x1b', '[', '1', 'm'] s0
  let s ← dropLitCI ['s', 't', 'e', 'p'] s
  let s ← ws1 s
  let (k, s) ← digits1 s
  let s ← dropCh '\x1b' s
  let s ← dropCh '[' s
  let s ← dropCh '0' s
  let s := optDropChCI 'm' s
  let s ← dropCh ':' s
  pure (k, s)

/-- Variant A: `... :\s*Burning\s*cells\s*=\s*(\d+)`. -/
def variantA (s0 : List Char) : Option (Nat × Nat) := do
  let (k, s) ← headerStem s0
  let s := ws0 s
  let s ← dropLitCI "burning".data s
  let s := ws0 s
  let s ← dropLitCI "cells".data s
  let s := ws0 s
  let s ← dropCh '=' s
  let s := ws0 s
  let (v, _) ← digits1 s
  pure (k, v)

/-- Variant B: `... :\s*Burning\s*=\s*(\d+)`. -/
def variantB (s0 : List Char) : Option (Nat × Nat) := do
  let (k, s) ← headerStem s0
  let s := ws0 s
  let s ← dropLitCI "burning".data s
  let s := ws0 s
  let s ← dropCh '=' s
  let s := ws0 s
  let (v, _) ← digits1 s
  pure (k, v)

/-- `is_step_header`: try variant A then variant B on the stripped line. -/
def is_step_header_l (line : List Char) : Option (Nat × Nat) :=
  let t := pyStrip line
  match variantA t with
  | some r => some r
  | none => variantB t

/-- `is_step_header` on a string. -/
def is_step_header (line : String) : Option (Nat × Nat) := is_step_header_l line.data

/-- `split_frames_by_headers`: frames span from one header line up to
(excluding) the next header or end-of-file; blank blocks are dropped. -/
def split_frames_by_headers (raw : String) : List String :=
  let lines := pySplitlines raw.data
  let idxs := (List.range lines.length).filter
    fun i => ((nth? lines i).map is_step_header_l |>.getD none).isSome
  match idxs with
  | [] => []
  | _ :: _ =>
    let pairs := idxs.zip (idxs.drop 1 ++ [lines.length])
    pairs.filterMap fun se =>
      let block := pyRstrip (joinNL ((lines.drop se.1).take (se.2 - se.1)))
      if block = [] then none else some ⟨block⟩

/-- `re.search(r"(\d+)", s)`: the first maximal digit run in `s`. -/
def findFirstNat : List Char → Option Nat
  | [] => none
  | c :: cs =>
    if c.isDigit then some (natOfDigits ((c :: cs).takeWhile Char.isDigit))
    else findFirstNat cs

/-- `extinguished\s*=\s*(\d+)` anchored at the start of `s`. -/
def extEqAt (s : List Char) : Option Nat := do
  let s ← dropLitCI "extinguished".data s
  let s := ws0 s
  let s ← dropCh '=' s
  let s := ws0 s
  let (v, _) ← digits1 s
  pure v

/-- `re.search(r"extinguished\s*=\s*(\d+)", s)`: leftmost match. -/
def searchExtEq : List Char → Option Nat
  | [] => none
  | c :: t =>
    match extEqAt (c :: t) with
    | some v => some v
    | none => searchExtEq t

/-- The `\s*=?\s*(\d+)` tail of the `natural` pattern (deterministic:
whitespace, `=` and digits are disjoint character classes). -/
def natTail (s : List Char) : Option Nat := do
  let s := ws0 s
  let s := (dropCh '=' s).getD s
  let s := ws0 s
  let (v, _) ← digits1 s
  pure v

/-- `(?:natural|natural burnouts)\s*=?\s*(\d+)` anchored at the start of `s`:
the engine tries the `natural` alternative first and backtracks into the
`natural burnouts` alternative if the tail fails after it. -/
def natEqAt (s : List Char) : Option Nat :=
  match dropLitCI "natural".data s with
  | none => none
  | some s1 =>
    match natTail s1 with
    | some v => some v
    | none =>
      match dropLitCI "natural burnouts".data s with
      | none => none
      | some s2 => natTail s2

/-- `re.search` for the `natural` pattern: leftmost match. -/
def searchNatEq : List Char → Option Nat
  | [] => none
  | c :: t =>
    match natEqAt (c :: t) with
    | some v => some v
    | none => searchNatEq t

/-- The three metric sequences, positionally aligned with the frames. -/
structure Metrics where
  burning_cells : List (Option Nat)
  natural_burnouts : List (Option Nat)
  extinguished_cum : List (Option Nat)
deriving DecidableEq

/-- The body of the `for ln in lines[1:6]` scan in `parse_metrics`:
sequentially update the `(natural, extinguished)` pair from one line. -/
def metricsLineStep (st : Option Nat × Option Nat) (ln : List Char) :
    Option Nat × Option Nat :=
  let s := pyLower (pyStrip ln)
  let nb1 :=
    if listStartsWith "natural burnouts".data s then
      match findFirstNat s with
      | some v => some v
      | none => st.1
    else st.1
  let ex1 :=
    if listStartsWith "extinguished by agents".data s then
      match findFirstNat s with
      | some v => some v
      | none => st.2
    else st.2
  let ex2 :=
    if containsSub "extinguished=".data s then
      match searchExtEq s with
      | some v => some v
      | none => ex1
    else ex1
  let nb2 :=
    if containsSub "natural burnouts".data s || containsSub "natural=".data s then
      match searchNatEq s with
      | some v => some v
      | none => nb1
    else nb1
  (nb2, ex2)

/-- `parse_metrics`: per-frame burning count from the header, plus natural /
extinguished counts scanned from the first five body lines. -/
def parse_metrics (frames : List String) : Metrics :=
  let rows := frames.map fun block =>
    let lines := pySplitlines block.data
    let b :=
      match lines with
      | [] => none
      | l0 :: _ => (is_step_header_l l0).map (·.2)
    let scanned := ((lines.drop 1).take 5).foldl metricsLineStep (none, none)
    (b, scanned.1, scanned.2)
  { burning_cells := rows.map (·.1)
    natural_burnouts := rows.map (·.2.1)
    extinguished_cum := rows.map (·.2.2) }

/-! ### JSON values and `json.loads` (for `load_index_jsonl`) -/

/-- A parsed JSON value, mirroring the `int`/`float` distinction
`json.loads` produces.  A finite `float` carries its exact decimal value
as a mantissa/exponent pair `(n, e)` denoting `n * 10 ^ e` (the only
float observations the program makes — truthiness, subtraction and
`isinstance(_, int)` — are exact on this encoding); `float none` is a
non-finite float (`NaN`, `Infinity`, `-Infinity`), which Python's
`json.loads` accepts by default. -/
inductive JVal where
  | null
  | bool (b : Bool)
  | int (n : Int)
  | float (v : Option (Int × Int))
  | str (s : List Char)
  | arr (xs : List JVal)
  | obj (kvs : List (List Char × JVal))

/-- JSON insignificant whitespace. -/
def jWsDrop (s : List Char) : List Char :=
  s.dropWhile fun c => c = ' ' ∨ c = '\t' ∨ c = '\n' ∨ c = '\r'

/-- Is this character hexadecimal (for `\uXXXX` escapes)? -/
def isHexDigitA (c : Char) : Bool :=
  c.isDigit || ('a' ≤ c ∧ c ≤ 'f') || ('A' ≤ c ∧ c ≤ 'F')

/-- Hex digit value. -/
def hexVal (c : Char) : Nat :=
  if c.isDigit then c.toNat - 48
  else if 'a' ≤ c ∧ c ≤ 'f' then c.toNat - 87
  else c.toNat - 55

/-- Worker for JSON string-body parsing; one fuel unit per character.
`json.loads` is strict by default: an unescaped control character
(codepoint below 32) inside a string is a decode error. -/
def jParseStrF : Nat → List Char → Option (List Char × List Char)
  | 0, _ => none
  | _ + 1, [] => none
  | _ + 1, '"' :: rest => some ([], rest)
  | fuel + 1, '\\' :: e :: rest =>
    (match e with
     | '"' => (jParseStrF fuel rest).map fun (s, r) => ('"' :: s, r)
     | '\\' => (jParseStrF fuel rest).map fun (s, r) => ('\\' :: s, r)
     | '/' => (jParseStrF fuel rest).map fun (s, r) => ('/' :: s, r)
     | 'n' => (jParseStrF fuel rest).map fun (s, r) => ('\n' :: s, r)
     | 't' => (jParseStrF fuel rest).map fun (s, r) => ('\t' :: s, r)
     | 'r' => (jParseStrF fuel rest).map fun (s, r) => ('\r' :: s, r)
     | 'b' => (jParseStrF fuel rest).map fun (s, r) => ('\x08' :: s, r)
     | 'f' => (jParseStrF fuel rest).map fun (s, r) => ('\x0c' :: s, r)
     | 'u' =>
       (match rest with
        | h1 :: h2 :: h3 :: h4 :: rest2 =>
          if isHexDigitA h1 ∧ isHexDigitA h2 ∧ isHexDigitA h3 ∧ isHexDigitA h4 then
            (jParseStrF fuel rest2).map fun (s, r) =>
              (Char.ofNat (((hexVal h1 * 16 + hexVal h2) * 16 + hexVal h3) * 16 + hexVal h4) :: s, r)
          else none
        | _ => none)
     | _ => none)
  | fuel + 1, c :: rest =>
    if c.toNat < 32 then none
    else (jParseStrF fuel rest).map fun (s, r) => (c :: s, r)

/-- Parse a JSON string body after the opening quote. -/
def jParseStr (l : List Char) : Option (List Char × List Char) :=
  jParseStrF l.length l

/-- The optional `.digits` fraction part of a JSON number: `none` on a dot
with no digit after it, otherwise the fraction digits (possibly absent)
and the rest. -/
def jParseFrac : List Char → Option (Option (List Char) × List Char)
  | '.' :: t =>
    let ds := t.takeWhile Char.isDigit
    if ds = [] then none else some (some ds, t.dropWhile Char.isDigit)
  | s => some (none, s)

/-- The optional `[eE][+-]?digits` exponent part of a JSON number: `none`
on an `e`/`E` with no digit after the optional sign, otherwise the signed
exponent (possibly absent) and the rest. -/
def jParseExp : List Char → Option (Option (Bool × Nat) × List Char)
  | e :: t =>
    if e = 'e' ∨ e = 'E' then
      let (negE, t2) := match t with
        | '-' :: t2 => (true, t2)
        | '+' :: t2 => (false, t2)
        | _ => (false, t)
      let ds := t2.takeWhile Char.isDigit
      if ds = [] then none
      else some (some (negE, natOfDigits ds), t2.dropWhile Char.isDigit)
    else some (none, e :: t)
  | [] => some (none, [])

/-- Parse a JSON number with the grammar `json.loads` uses:
`-?(0|[1-9][0-9]*)(\.[0-9]+)?([eE][+-]?[0-9]+)?` — a leading zero may not
be followed by another integer digit, a dot and an `e`/`E` each require at
least one digit after them (`07`, `1.`, `1e` all fail); the result is an
`int` exactly when no fraction or exponent part is present, and the
scanner's extra constants `NaN`, `Infinity` and `-Infinity` parse as
non-finite floats.  (Where Python's regex stops early and the document
then fails on the leftover text — `07`, `1.` — this parser fails on the
number itself; both abort `json.loads`.) -/
def jParseNum (s : List Char) : Option (JVal × List Char) :=
  if listStartsWith "NaN".data s then some (.float none, s.drop 3)
  else
    let (neg, s1) := match s with
      | '-' :: t => (true, t)
      | _ => (false, s)
    if listStartsWith "Infinity".data s1 then some (.float none, s1.drop 8)
    else
      let intPart := s1.takeWhile Char.isDigit
      let rest1 := s1.dropWhile Char.isDigit
      if intPart = [] then none
      else if 2 ≤ intPart.length ∧ listStartsWith ['0'] intPart then none
      else
        match jParseFrac rest1 with
        | none => none
        | some (frac, rest2) =>
          match jParseExp rest2 with
          | none => none
          | some (expo, rest3) =>
            match frac, expo with
            | none, none =>
              some (.int (if neg then -(natOfDigits intPart : Int)
                          else (natOfDigits intPart : Int)), rest3)
            | _, _ =>
              let fds := frac.getD []
              let n0 : Int := (natOfDigits (intPart ++ fds) : Int)
              let e0 : Int := (match expo with
                | some (negE, e) => if negE then -(e : Int) else (e : Int)
                | none => 0) - fds.length
              some (.float (some (if neg then -n0 else n0, e0)), rest3)

mutual

/-- Fuel-indexed recursive-descent parser for one JSON value. -/
def jParseVal : Nat → List Char → Option (JVal × List Char)
  | 0, _ => none
  | fuel + 1, s =>
    match jWsDrop s with
    | '{' :: rest => jParseMembers fuel (jWsDrop rest) []
    | '[' :: rest => jParseItems fuel (jWsDrop rest) []
    | '"' :: rest => (jParseStr rest).map fun (str, r) => (.str str, r)
    | 't' :: 'r' :: 'u' :: 'e' :: rest => some (.bool true, rest)
    | 'f' :: 'a' :: 'l' :: 's' :: 'e' :: rest => some (.bool false, rest)
    | 'n' :: 'u' :: 'l' :: 'l' :: rest => some (.null, rest)
    | rest => jParseNum rest

/-- Parse object members; `acc` holds the members read so far, reversed. -/
def jParseMembers : Nat → List Char → List (List Char × JVal) →
    Option (JVal × List Char)
  | 0, _, _ => none
  | _ + 1, '}' :: rest, acc => some (.obj acc.reverse, rest)
  | fuel + 1, '"' :: rest, acc =>
    match jParseStr rest with
    | none => none
    | some (key, r1) =>
      match jWsDrop r1 with
      | ':' :: r2 =>
        match jParseVal fuel r2 with
        | none => none
        | some (v, r3) =>
          match jWsDrop r3 with
          | ',' :: r4 => jParseMembers fuel (jWsDrop r4) ((key, v) :: acc)
          | '}' :: r4 => some (.obj ((key, v) :: acc).reverse, r4)
          | _ => none
      | _ => none
  | _ + 1, _, _ => none

/-- Parse array items; `acc` holds the items read so far, reversed. -/
def jParseItems : Nat → List Char → List JVal → Option (JVal × List Char)
  | 0, _, _ => none
  | _ + 1, ']' :: rest, acc => some (.arr acc.reverse, rest)
  | fuel + 1, s, acc =>
    match jParseVal fuel s with
    | none => none
    | some (v, r1) =>
      match jWsDrop r1 with
      | ',' :: r2 => jParseItems fuel (jWsDrop r2) (v :: acc)
      | ']' :: r2 => some (.arr (v :: acc).reverse, r2)
      | _ => none

end

/-- `json.loads(line)`: parse one complete JSON document; `none` models
`json.JSONDecodeError`. -/
def pyJsonLoads (l : List Char) : Option JVal :=
  match jParseVal (l.length + 1) l with
  | none => none
  | some (v, rest) => if jWsDrop rest = [] then some v else none

/-- Python truthiness of a decoded JSON value (`None`, `False`, `0`, `0.0`,
`""`, `[]`, `{}` are falsy). -/
def jTruthy : JVal → Bool
  | .null => false
  | .bool b => b
  | .int n => n ≠ 0
  | .float v => match v with
    | some nv => nv.1 ≠ 0
    | none => true
  | .str s => s ≠ []
  | .arr xs => ¬ xs.isEmpty
  | .obj kvs => ¬ kvs.isEmpty

/-- `obj.get(key)`: `None` when absent; on duplicate keys the last one wins,
as in a Python dict built by `json.loads`. -/
def jGet (kvs : List (List Char × JVal)) (key : List Char) : Option JVal :=
  (kvs.reverse.find? fun kv => kv.1 = key).map (·.2)

/-- `obj.get(key)` with the `None` result materialized as a value. -/
def jGetD (kvs : List (List Char × JVal)) (key : List Char) : JVal :=
  (jGet kvs key).getD .null

/-- Is this decoded value Python `None`? -/
def jIsNull : JVal → Bool
  | .null => true
  | _ => false

/-- Python `a or b` on decoded JSON values. -/
def pyOrJ (a b : JVal) : JVal := if jTruthy a then a else b

/-- `isinstance(x, int)`: `True` also for `bool` (a subclass of `int`). -/
def isInstInt : JVal → Bool
  | .int _ => true
  | .bool _ => true
  | _ => false

/-- The integer value of an `int`-instance JSON value. -/
def jToInt : JVal → Int
  | .int n => n
  | .bool b => if b then 1 else 0
  | _ => 0

/-! ### Index loading and the frame store (`ansi.py`: `IndexEntry`,
`load_index_jsonl`, `FrameSource`) -/

/-- Python exception kinds that can escape the modelled code. -/
inductive PyErr where
  | fileNotFound
  | jsonError
  | attrError
  | typeError
  | unicodeError
deriving DecidableEq

/-- `IndexEntry`: byte offset and length of one frame. -/
structure IndexEntry where
  offset : Int
  length : Int
deriving DecidableEq

/-- Exact subtraction of two decimal-encoded float values `n * 10 ^ e`,
aligning the exponents first. -/
def decSub (a b : Int × Int) : Int × Int :=
  if a.2 ≤ b.2 then (a.1 - b.1 * 10 ^ (b.2 - a.2).toNat, a.2)
  else (a.1 * 10 ^ (a.2 - b.2).toNat - b.1, b.2)

/-- `obj["end"] - off`: Python subtraction on the decoded values.  Two
`int` instances (including `bool`) give an `int`; when either operand is a
`float` and the other is numeric the result is a `float` (exact when both
are finite, non-finite otherwise); a non-numeric operand (`str`, `None`,
list, dict) raises `TypeError`. -/
def pySubJ (a b : JVal) : Except PyErr JVal :=
  match a, b with
  | .float va, .float vb =>
    .ok (.float (match va, vb with
      | some x, some y => some (decSub x y)
      | _, _ => none))
  | .float va, y =>
    if isInstInt y then .ok (.float (va.map fun x => decSub x (jToInt y, 0)))
    else .error .typeError
  | x, .float vb =>
    if isInstInt x then .ok (.float (vb.map fun y => decSub (jToInt x, 0) y))
    else .error .typeError
  | x, y =>
    if isInstInt x ∧ isInstInt y then .ok (.int (jToInt x - jToInt y))
    else .error .typeError

/-- The body of `load_index_jsonl` for one non-blank line: parse it, read
`offset`/`start` (defaulting to `0`), `length`/`len` or `end - offset`, keep
the record only when both are `int` instances.  `Except` carries the
uncaught exceptions (`json.loads` failure, `.get` on a non-object,
`TypeError` in the subtraction). -/
def indexLineRecord (l : List Char) : Except PyErr (Option IndexEntry) :=
  match pyJsonLoads l with
  | none => .error .jsonError
  | some v =>
    match v with
    | .obj kvs =>
      let off := pyOrJ (jGetD kvs "offset".data) (pyOrJ (jGetD kvs "start".data) (.int 0))
      let ln0 := pyOrJ (jGetD kvs "length".data) (jGetD kvs "len".data)
      let lnE : Except PyErr JVal :=
        if jIsNull ln0 ∧ (jGet kvs "end".data).isSome then
          pySubJ (jGetD kvs "end".data) off
        else .ok ln0
      match lnE with
      | .error e => .error e
      | .ok ln =>
        if isInstInt off ∧ isInstInt ln then
          .ok (some ⟨jToInt off, jToInt ln⟩)
        else .ok none
    | _ => .error .attrError

/-- `load_index_jsonl` over the file's lines: blank lines are skipped, valid
records are collected in order, any uncaught exception aborts the load. -/
def load_index_jsonl : List (List Char) → Except PyErr (List IndexEntry)
  | [] => .ok []
  | l :: rest =>
    if pyStrip l = [] then load_index_jsonl rest
    else
      match indexLineRecord l with
      | .error e => .error e
      | .ok none => load_index_jsonl rest
      | .ok (some ent) =>
        match load_index_jsonl rest with
        | .error e => .error e
        | .ok es => .ok (ent :: es)

/-! UTF-8 decoding: `str` decoding is strict (raises `UnicodeDecodeError`),
while `FrameSource.get` decodes with `errors="replace"`. -/

/-- Worker for UTF-8 unit decoding; one fuel unit per decoded unit. -/
def utf8UnitsF : Nat → List Nat → List (Option Char)
  | 0, _ => []
  | _ + 1, [] => []
  | fuel + 1, b :: rest =>
    if b < 128 then some (Char.ofNat b) :: utf8UnitsF fuel rest
    else if 194 ≤ b ∧ b ≤ 223 then
      match rest with
      | b2 :: rest2 =>
        if 128 ≤ b2 ∧ b2 ≤ 191 then
          some (Char.ofNat ((b - 192) * 64 + (b2 - 128))) :: utf8UnitsF fuel rest2
        else none :: utf8UnitsF fuel (b2 :: rest2)
      | [] => [none]
    else if 224 ≤ b ∧ b ≤ 239 then
      match rest with
      | b2 :: b3 :: rest3 =>
        if (if b = 224 then 160 ≤ b2 ∧ b2 ≤ 191
            else if b = 237 then 128 ≤ b2 ∧ b2 ≤ 159
            else 128 ≤ b2 ∧ b2 ≤ 191) ∧ 128 ≤ b3 ∧ b3 ≤ 191 then
          some (Char.ofNat (((b - 224) * 64 + (b2 - 128)) * 64 + (b3 - 128))) :: utf8UnitsF fuel rest3
        else none :: utf8UnitsF fuel (b2 :: b3 :: rest3)
      | _ => [none]
    else if 240 ≤ b ∧ b ≤ 244 then
      match rest with
      | b2 :: b3 :: b4 :: rest4 =>
        if (if b = 240 then 144 ≤ b2 ∧ b2 ≤ 191
            else if b = 244 then 128 ≤ b2 ∧ b2 ≤ 143
            else 128 ≤ b2 ∧ b2 ≤ 191) ∧ 128 ≤ b3 ∧ b3 ≤ 191 ∧ 128 ≤ b4 ∧ b4 ≤ 191 then
          some (Char.ofNat ((((b - 240) * 64 + (b2 - 128)) * 64 + (b3 - 128)) * 64 + (b4 - 128)))
            :: utf8UnitsF fuel rest4
        else none :: utf8UnitsF fuel (b2 :: b3 :: b4 :: rest4)
      | _ => [none]
    else none :: utf8UnitsF fuel rest

/-- Decode a byte stream into scalar units; `none` marks an invalid unit. -/
def utf8Units (l : List Nat) : List (Option Char) := utf8UnitsF l.length l

/-- The U+FFFD replacement character. -/
def replChar : Char := Char.ofNat 0xFFFD

/-- `bytes.decode("utf-8", errors="replace")`. -/
def decodeUtf8Replace (l : List Nat) : List Char :=
  (utf8Units l).map fun u => u.getD replChar

/-- Collect a fully valid decode; `none` on any invalid unit. -/
def collectSome : List (Option Char) → Option (List Char)
  | [] => some []
  | none :: _ => none
  | some c :: rest => (collectSome rest).map (c :: ·)

/-- Strict `bytes.decode("utf-8")`; `none` models `UnicodeDecodeError`. -/
def utf8DecodeStrict (l : List Nat) : Option (List Char) :=
  collectSome (utf8Units l)

/-- The file system visible to the boundary layer: path to raw bytes. -/
def FileSys : Type := String → Option (List Nat)

/-- `_read_text`: `FileNotFoundError` when absent, strict text decode. -/
def readTextE (fsys : FileSys) (p : String) : Except PyErr String :=
  match fsys p with
  | none => .error .fileNotFound
  | some bytes =>
    match utf8DecodeStrict bytes with
    | none => .error .unicodeError
    | some chars => .ok ⟨chars⟩

/-- `FrameSource`: index entries plus the backing bytes in random-access
mode, or materialized frame texts in split mode. -/
structure FrameSource where
  ansBytes : Option (List Nat)
  indexed : Bool
  frames : List String
  entries : List IndexEntry
deriving DecidableEq

/-- `len(source)`. -/
def FrameSource.length' (fs : FrameSource) : Nat :=
  if fs.indexed then fs.entries.length else fs.frames.length

/-- `f.read(n)`: all remaining bytes when `n` is negative. -/
def pyReadLen (rest : List Nat) (n : Int) : List Nat :=
  if n < 0 then rest else rest.take n.toNat

/-- `FrameSource.get(k)` (1-based, Python list indexing semantics on the
entry/frame lists; `none` models the exceptions `IndexError`, a seek to a
negative offset, and a missing backing file in random-access mode). -/
def FrameSource.get (fs : FrameSource) (k : Int) : Option String :=
  if fs.indexed then
    match pyIndex fs.entries (k - 1) with
    | none => none
    | some e =>
      match fs.ansBytes with
      | none => none
      | some bytes =>
        if e.offset < 0 then none
        else some ⟨decodeUtf8Replace (pyReadLen (bytes.drop e.offset.toNat) e.length)⟩
  else pyIndex fs.frames (k - 1)

/-- Load entries from an index file (text-mode read plus
`load_index_jsonl`), for `FrameSource.__init__`. -/
def loadIndexFromFile (fsys : FileSys) (p : String) : Except PyErr (List IndexEntry) :=
  match fsys p with
  | none => .ok []
  | some bytes =>
    match utf8DecodeStrict bytes with
    | none => .error .unicodeError
    | some chars => load_index_jsonl (pySplitlines chars)

/-- `FrameSource.__init__`: use the index when it is supplied, exists and
yields at least one entry; otherwise split the log text by headers. -/
def mkFrameSource (fsys : FileSys) (ansPath : String) (indexPath : Option String) :
    Except PyErr FrameSource :=
  let entriesE : Except PyErr (List IndexEntry) :=
    match indexPath with
    | some p => if p ≠ "" ∧ (fsys p).isSome then loadIndexFromFile fsys p else .ok []
    | none => .ok []
  match entriesE with
  | .error e => .error e
  | .ok entries =>
    if 0 < entries.length then
      .ok { ansBytes := fsys ansPath, indexed := true, frames := [], entries := entries }
    else
      match readTextE fsys ansPath with
      | .error e => .error e
      | .ok raw =>
        .ok { ansBytes := fsys ansPath, indexed := false,
              frames := split_frames_by_headers raw, entries := [] }

/-! ### Boundary layer (`server.py`: session, `api_load`, `api_frame`,
`api_export_gif`) -/

/-- The HTTP-level failures raised by the routes (`HTTPException` with
status 404 or 400), plus `internal` for any other uncaught exception
(which FastAPI reports as a 500 response). -/
inductive HErr where
  | notFound (msg : String)
  | badRequest (msg : String)
  | internal (msg : String)
deriving DecidableEq

/-- The mutable server session. -/
structure Session where
  source : Option FrameSource
  metrics : Metrics
  agent_status : List (List String)
deriving DecidableEq

/-- `LoadReq`. -/
structure LoadReq' where
  ans_path : String
  index_jsonl : Option String
  agent_status_path : Option String
deriving DecidableEq

/-- `ExportReq` (`fps` is a `float`, modelled as an exact rational; the
source's `end` field is named `stop` here because `end` is reserved). -/
structure ExportReq' where
  start : Option Int
  stop : Option Int
  fps : ℚ
  font_size : Nat
  bg_color : String
deriving DecidableEq

/-- The `/api/load` response body. -/
structure LoadResp where
  ok : Bool
  num_frames : Nat
  metrics : Metrics
  has_agent_status : Bool
deriving DecidableEq

/-- The `/api/frame/{k}` response body. -/
structure FramePayload where
  index : Int
  html : String
  agent_status : List String
  burning : Option Nat
  natural : Option Nat
  ext : Option Nat
deriving DecidableEq

/-- The produced animated artifact: the per-frame sources (one bitmap is
rendered from each), the per-frame display duration in milliseconds, the
loop count and the disposal policy passed to the encoder. -/
structure GifOut where
  frames : List String
  durationMs : Int
  loop : Nat
  disposal : Nat
deriving DecidableEq

/-- The last index of `c` in `l`, or `-1` (`str.rfind`). -/
def rfindIdx (c : Char) (l : List Char) : Int :=
  (l.foldl (fun (st : Int × Int) d => (st.1 + 1, if d = c then st.1 else st.2)) (0, -1)).2

/-- `os.path.splitext`. -/
def pySplitext (p : String) : String × String :=
  let l := p.data
  let sep := rfindIdx '/' l
  let dot := rfindIdx '.' l
  if sep < dot then
    let mid := (l.drop (sep + 1).toNat).take (dot - sep - 1).toNat
    if mid.any (· ≠ '.') then (⟨l.take dot.toNat⟩, ⟨l.drop dot.toNat⟩)
    else (p, "")
  else (p, "")

/-- The sibling-index probe in `api_load`: `<base>.index.jsonl` next to the
log, used when it exists. -/
def probeIndex (fsys : FileSys) (ansPath : String) : Option String :=
  let cand := (pySplitext ansPath).1 ++ ".index.jsonl"
  if (fsys cand).isSome then some cand else none

/-- The index path used by `api_load`: the request's path when truthy,
otherwise the probe. -/
def resolveIndexPath (fsys : FileSys) (req : LoadReq') : Option String :=
  match req.index_jsonl with
  | some p => if p = "" then probeIndex fsys req.ans_path else some p
  | none => probeIndex fsys req.ans_path

/-- `_parse_agent_status`: step-delimited annotation lines. -/
def _parse_agent_status (txt : String) : List (List String) :=
  let fin := (pySplitlines txt.data).foldl
    (fun (st : List (List String) × List String) line =>
      let t := pyStrip line
      if listStartsWith "step ".data (pyLower t) then
        if st.2 ≠ [] then (st.1 ++ [st.2.reverse], []) else (st.1, st.2)
      else if t ≠ [] then (st.1, (⟨t⟩ : String) :: st.2)
      else (st.1, st.2))
    ([], [])
  if fin.2 ≠ [] then fin.1 ++ [fin.2.reverse] else fin.1

/-- `range(start, endk + 1)` as 1-based frame numbers. -/
def intRange (a b : Int) : List Int :=
  (List.range (b - a + 1).toNat).map fun i => a + i

/-- `[src.get(k) for k in ks]`, failing if any single read fails. -/
def seqGet (src : FrameSource) : List Int → Option (List String)
  | [] => some []
  | k :: ks =>
    match src.get k with
    | none => none
    | some f => (seqGet src ks).map (f :: ·)

/-- The frame texts `[src.get(k) for k in range(1, len(src) + 1)]`. -/
def framesOf (src : FrameSource) : Option (List String) :=
  seqGet src (intRange 1 src.length')

/-- The session produced by a successful load, before the optional
agent-status file is considered. -/
def loadedSession (src : FrameSource) (metrics : Metrics) : Session :=
  { source := some src, metrics := metrics, agent_status := [] }

/-- The `/api/load` success response. -/
def mkLoadResp (src : FrameSource) (metrics : Metrics) (ag : List (List String)) :
    LoadResp :=
  { ok := true, num_frames := src.length', metrics := metrics,
    has_agent_status := ¬ ag.isEmpty }

/-- `api_load`: build a `FrameSource`, reject a missing log (404) or an
empty frame set (400), compute the metrics eagerly, then replace the
session; the optional agent-status file is read afterwards (a missing file
leaves the annotation list empty). -/
def api_load (fsys : FileSys) (sess : Session) (req : LoadReq') :
    Session × Except HErr LoadResp :=
  match mkFrameSource fsys req.ans_path (resolveIndexPath fsys req) with
  | .error .fileNotFound =>
    (sess, .error (.notFound ("File not found: " ++ req.ans_path)))
  | .error _ => (sess, .error (.internal "unhandled exception"))
  | .ok src =>
    if src.length' = 0 then
      (sess, .error (.badRequest "No frames detected in file"))
    else
      match framesOf src with
      | none => (sess, .error (.internal "unhandled exception"))
      | some frames =>
        let metrics := parse_metrics frames
        match req.agent_status_path with
        | none => (loadedSession src metrics, .ok (mkLoadResp src metrics []))
        | some p =>
          if p = "" then (loadedSession src metrics, .ok (mkLoadResp src metrics []))
          else
            match readTextE fsys p with
            | .ok txt =>
              let ag := _parse_agent_status txt
              ({ loadedSession src metrics with agent_status := ag },
               .ok (mkLoadResp src metrics ag))
            | .error .fileNotFound =>
              (loadedSession src metrics, .ok (mkLoadResp src metrics []))
            | .error _ =>
              (loadedSession src metrics, .error (.internal "unhandled exception"))

/-- `api_frame`: reject when nothing is loaded or `k` is outside
`1..length()`, otherwise render the frame and attach its metrics. -/
def api_frame (sess : Session) (k : Int) : Except HErr FramePayload :=
  match sess.source with
  | none => .error (.badRequest "No file loaded")
  | some src =>
    let n := src.length'
    if k < 1 ∨ (n : Int) < k then
      .error (.badRequest ("Frame index out of range 1.." ++ toString n))
    else
      match src.get k with
      | none => .error (.internal "unhandled exception")
      | some raw =>
        match pyIndex sess.metrics.burning_cells (k - 1),
              pyIndex sess.metrics.natural_burnouts (k - 1),
              pyIndex sess.metrics.extinguished_cum (k - 1) with
        | some b, some nb, some ex =>
          .ok { index := k, html := ansi_to_html raw,
                agent_status :=
                  if 0 ≤ k - 1 ∧ k - 1 < (sess.agent_status.length : Int) then
                    ((pyIndex sess.agent_status (k - 1)).getD [])
                  else [],
                burning := b, natural := nb, ext := ex }
        | _, _, _ => .error (.internal "unhandled exception")

/-- Python `int()` truncation (toward zero) of an exact rational. -/
def pyTrunc (q : ℚ) : Int := Int.tdiv q.num q.den

/-- Python 3 `round()` to an integer: banker's rounding, half to even. -/
def pyRound (q : ℚ) : Int :=
  let f : Int := Int.fdiv q.num q.den
  let r : ℚ := q - f
  if r < 1/2 then f
  else if 1/2 < r then f + 1
  else if f % 2 = 0 then f else f + 1

/-- `cfg.start or default` (`None` and `0` both fall back). -/
def pyOrIntOpt (o : Option Int) (d : Int) : Int :=
  match o with
  | none => d
  | some v => if v = 0 then d else v

/-- `api_export_gif`: clamp the 1-based inclusive range, render each frame,
and encode with `duration = int(1000.0 / max(cfg.fps, 0.1))`, `loop=0`,
`disposal=2`. -/
def api_export_gif (sess : Session) (cfg : ExportReq') : Except HErr GifOut :=
  match sess.source with
  | none => .error (.badRequest "No file loaded")
  | some src =>
    let n : Int := src.length'
    let start := max 1 (min (pyOrIntOpt cfg.start 1) n)
    let endk := max start (min (pyOrIntOpt cfg.stop n) n)
    match seqGet src (intRange start endk) with
    | none => .error (.internal "unhandled exception")
    | some [] => .error (.internal "unhandled exception")
    | some (f0 :: fr) =>
      .ok { frames := f0 :: fr,
            durationMs := pyTrunc (1000 / max cfg.fps (1/10)),
            loop := 0, disposal := 2 }

/-! ### Derived notions and concrete fixtures used by the statements -/

/-- Concatenated text of a list of runs, in order. -/
def spansText : List Span → List Char
  | [] => []
  | sp :: l => sp.text.data ++ spansText l

/-- The text carried by a parser state: emitted spans plus the open buffer. -/
def textOf (st : PState) : List Char := spansText st.spans ++ st.buf

/-- A small wildfire log with three styled step headers, one frame each. -/
def hdrW1 : String := "\x1b[1mStep 1\x1b[0m: Burning cells = 5"

/-- Second frame header of the fixture log. -/
def hdrW2 : String := "\x1b[1mStep 2\x1b[0m: Burning cells = 4"

/-- Third frame header of the fixture log. -/
def hdrW3 : String := "\x1b[1mStep 3\x1b[0m: Burning cells = 3"

/-- The fixture log text. -/
def logW : String := hdrW1 ++ "\n" ++ hdrW2 ++ "\n" ++ hdrW3

/-- A file system carrying only the fixture log. -/
def fsysW : FileSys := fun p =>
  if p = "log.ans" then some (logW.data.map Char.toNat) else none

/-- An empty file system. -/
def fsysEmpty : FileSys := fun _ => none

/-- The empty session (server start-up state). -/
def sess0 : Session := ⟨none, ⟨[], [], []⟩, []⟩

/-- A load request for the fixture log. -/
def reqW : LoadReq' := ⟨"log.ans", none, none⟩

/-- A load request for a missing log. -/
def reqMissing : LoadReq' := ⟨"missing.ans", none, none⟩

/-- The frame store built from the fixture log (split mode, three frames). -/
def srcW : FrameSource :=
  (mkFrameSource fsysW "log.ans" none).toOption.getD ⟨none, false, [], []⟩

/-- The session after loading the fixture log. -/
def sessW : Session := (api_load fsysW sess0 reqW).1

/-- An export request at fps 2.9 over frames 1..3. -/
def cfgW29 : ExportReq' := ⟨some 1, some 3, 29/10, 14, "#111111"⟩

/-- An export request at fps 2 over frames 1..3. -/
def cfgW2 : ExportReq' := ⟨some 1, some 3, 2, 14, "#111111"⟩

theorem hexDigitChar_hex : ∀ d, d < 16 → isHexLower (hexDigitChar d) = true := by decide

theorem lut_wf : ∀ k : Nat, k < 16 →
    wellFormedHexColor ((nth? lutSystem k).getD "#cccccc") = true := by decide

theorem wf_hex_triple (a b c : Nat) :
    wellFormedHexColor ("#" ++ hex2 a ++ hex2 b ++ hex2 c) = true := by
  have hd : ("#" ++ hex2 a ++ hex2 b ++ hex2 c).data =
      ['#', hexDigitChar (a / 16 % 16), hexDigitChar (a % 16),
       hexDigitChar (b / 16 % 16), hexDigitChar (b % 16),
       hexDigitChar (c / 16 % 16), hexDigitChar (c % 16)] := rfl
  have h1 := hexDigitChar_hex (a / 16 % 16) (Nat.mod_lt _ (by omega))
  have h2 := hexDigitChar_hex (a % 16) (Nat.mod_lt _ (by omega))
  have h3 := hexDigitChar_hex (b / 16 % 16) (Nat.mod_lt _ (by omega))
  have h4 := hexDigitChar_hex (b % 16) (Nat.mod_lt _ (by omega))
  have h5 := hexDigitChar_hex (c / 16 % 16) (Nat.mod_lt _ (by omega))
  have h6 := hexDigitChar_hex (c % 16) (Nat.mod_lt _ (by omega))
  unfold wellFormedHexColor
  rw [hd]
  simp only [List.length_cons, List.length_nil, listStartsWith, List.drop_succ_cons,
    List.drop_zero, List.all_cons, List.all_nil, h1, h2, h3, h4, h5, h6]
  decide

theorem rgb_decomp (a b c : Nat) (ha : a ≤ 255) (hb : b ≤ 255) (hc : c ≤ 255) :
    (a * 65536 + b * 256 + c) / 65536 % 256 = a ∧
    (a * 65536 + b * 256 + c) / 256 % 256 = b ∧
    (a * 65536 + b * 256 + c) % 256 = c := by
  refine ⟨by omega, by omega, by omega⟩

theorem to255_eq_cubeChannel (v : Nat) : to255 v = cubeChannel v := by
  unfold to255 cubeChannel
  split <;> omega

theorem cubeChannel_le (v : Nat) (h : v ≤ 5) : cubeChannel v ≤ 255 := by
  unfold cubeChannel
  split <;> omega

/-- C4: for n in 16..231, `extended_color` maps n through the 6×6×6 cube —
base-6 digits of n−16 with channel map 0→0, v→55+40v, composed as a 24-bit
RGB value; for n in 232..255 it is the gray ramp 8+10·(n−232) on all three
channels; outside 0..255 it is the fixed neutral gray `#cccccc`. -/
theorem C4_extended_color : ∀ n : Int,
    (16 ≤ n ∧ n ≤ 231 →
      xterm_256_to_hex n =
        rgbHex (cubeChannel ((n - 16).toNat / 36) * 65536 +
                cubeChannel ((n - 16).toNat / 6 % 6) * 256 +
                cubeChannel ((n - 16).toNat % 6))) ∧
    (232 ≤ n ∧ n ≤ 255 →
      xterm_256_to_hex n =
        rgbHex ((8 + 10 * (n - 232).toNat) * 65536 +
                (8 + 10 * (n - 232).toNat) * 256 +
                (8 + 10 * (n - 232).toNat))) ∧
    (n < 0 ∨ 255 < n → xterm_256_to_hex n = "#cccccc") := by
  intro n
  refine ⟨fun h => ?_, fun h => ?_, fun h => ?_⟩
  · unfold xterm_256_to_hex
    rw [if_neg (by omega), if_pos h]
    unfold xterm_256_to_hex.hexOfCube rgbHex
    set m := (n - 16).toNat with hm
    have hm215 : m ≤ 215 := by omega
    have h36 : m / 36 % 6 = m / 36 := Nat.mod_eq_of_lt (by omega)
    rw [h36, to255_eq_cubeChannel, to255_eq_cubeChannel, to255_eq_cubeChannel]
    have e1 : cubeChannel (m / 36) ≤ 255 := cubeChannel_le _ (by omega)
    have e2 : cubeChannel (m / 6 % 6) ≤ 255 := cubeChannel_le _ (by omega)
    have e3 : cubeChannel (m % 6) ≤ 255 := cubeChannel_le _ (by omega)
    obtain ⟨x1, x2, x3⟩ := rgb_decomp _ _ _ e1 e2 e3
    rw [x1, x2, x3]
  · unfold xterm_256_to_hex
    rw [if_neg (by omega), if_neg (by omega), if_pos h]
    unfold xterm_256_to_hex.hexOfGray rgbHex
    have hg : 8 + (n - 232).toNat * 10 = 8 + 10 * (n - 232).toNat := by omega
    rw [hg]
    have hg255 : 8 + 10 * (n - 232).toNat ≤ 255 := by omega
    obtain ⟨x1, x2, x3⟩ := rgb_decomp _ _ _ hg255 hg255 hg255
    rw [x1, x2, x3]
  · rcases h with h | h
    · unfold xterm_256_to_hex
      rw [if_pos (by omega)]
      unfold lut16
      rw [if_neg (by omega)]
    · unfold xterm_256_to_hex
      rw [if_neg (by omega), if_neg (by omega), if_neg (by omega)]

/-- Witness for C4 at concrete inputs in each of the three ranges. -/
theorem C4_extended_color_witness :
    xterm_256_to_hex 100 =
      rgbHex (cubeChannel (84 / 36) * 65536 + cubeChannel (84 / 6 % 6) * 256 +
              cubeChannel (84 % 6)) ∧
    xterm_256_to_hex 240 = rgbHex ((8 + 10 * 8) * 65536 + (8 + 10 * 8) * 256 + (8 + 10 * 8)) ∧
    xterm_256_to_hex 300 = "#cccccc" :=
  ⟨(C4_extended_color 100).1 ⟨by decide, by decide⟩,
   (C4_extended_color 240).2.1 ⟨by decide, by decide⟩,
   (C4_extended_color 300).2.2 (Or.inr (by decide))⟩

/-- C10: for every integer n — negative and above 255 included —
`xterm_256_to_hex n` is `'#'` followed by exactly six lowercase hex digits;
the function is total with no error path. -/
theorem C10_wellformed : ∀ n : Int, wellFormedHexColor (xterm_256_to_hex n) = true := by
  intro n
  unfold xterm_256_to_hex
  split_ifs with h1 h2 h3
  · unfold lut16
    by_cases h0 : 0 ≤ n ∧ n < 16
    · rw [if_pos h0]
      exact lut_wf n.toNat (by omega)
    · rw [if_neg h0]
      decide
  · exact wf_hex_triple _ _ _
  · exact wf_hex_triple _ _ _
  · decide

/-! ### Frame-header scenario -/

/-- C2: the plain line `"Step 3: Burning cells = 12"` is NOT recognized as a
frame header (the header regexes require a literal `ESC [ 0` before the
colon), so no step number or burning count is extracted and the metric slot
for a frame headed by that line is empty; the escape-styled form of the same
line is recognized with step 3 and burning count 12. -/
theorem C2_header_divergence :
    is_step_header "Step 3: Burning cells = 12" = none ∧
    (parse_metrics ["Step 3: Burning cells = 12"]).burning_cells = [none] ∧
    is_step_header "\x1b[1mStep 3\x1b[0m: Burning cells = 12" = some (3, 12) := by
  exact ⟨rfl, rfl, rfl⟩


/-! ### Interpreter state lemmas -/

theorem spansText_append (a b : List Span) :
    spansText (a ++ b) = spansText a ++ spansText b := by
  induction a with
  | nil => rfl
  | cons sp t ih => simp [spansText, ih]

theorem flushSt_spansText (st : PState) : spansText (flushSt st).spans = textOf st := by
  unfold flushSt textOf
  split
  · rename_i hb
    rw [hb]
    simp
  · simp [spansText_append, spansText]

theorem flushSt_textOf (st : PState) : textOf (flushSt st) = textOf st := by
  unfold textOf flushSt
  split
  · rfl
  · simp [spansText_append, spansText]

theorem textOf_withCur (st : PState) (c : Style) :
    textOf { st with cur := c } = textOf st := rfl

theorem applyCodesF_textOf : ∀ (fuel : Nat) (l : List Nat) (st : PState),
    textOf (applyCodesF fuel l st) = textOf st := by
  intro fuel
  induction fuel with
  | zero => intro l st; rfl
  | succ m ih =>
    intro l st
    match l with
    | [] => rfl
    | c :: rest =>
      rw [applyCodesF]
      split_ifs with h0 h1 h2 h3 h4 h5
      · exact (ih _ _).trans (flushSt_textOf st)
      · exact (ih _ _).trans (flushSt_textOf st)
      · exact (ih _ _).trans (flushSt_textOf st)
      · exact (ih _ _).trans (flushSt_textOf st)
      · rcases hE : extParam rest with _ | ⟨nn, rest2⟩
        · exact ih rest st
        · exact (ih _ _).trans (flushSt_textOf st)
      · rcases hE : extParam rest with _ | ⟨nn, rest2⟩
        · exact ih rest st
        · exact (ih _ _).trans (flushSt_textOf st)
      · exact ih rest st

theorem applyCodes_textOf (l : List Nat) (st : PState) :
    textOf (applyCodes l st) = textOf st :=
  applyCodesF_textOf l.length l st

theorem stepTok_textOf_code (st : PState) (ps : List Char) :
    textOf (stepTok st (.code ps)) = textOf st := by
  show textOf (if ps = [] ∨ ps = ['0'] then { flushSt st with cur := {} }
               else applyCodes (parseParts ps) st) = textOf st
  split_ifs with h
  · exact flushSt_textOf st
  · exact applyCodes_textOf (parseParts ps) st

theorem foldl_textOf : ∀ (ts : List Tok) (st : PState),
    textOf (ts.foldl stepTok st) = textOf st ++ toksText ts := by
  intro ts
  induction ts with
  | nil => intro st; simp [toksText]
  | cons t ts ih =>
    intro st
    rw [List.foldl_cons, ih]
    cases t with
    | chr c =>
      show textOf { st with buf := st.buf ++ [c] } ++ toksText ts =
        textOf st ++ toksText (Tok.chr c :: ts)
      have h1 : toksText (Tok.chr c :: ts) = [c] ++ toksText ts := rfl
      have h2 : textOf { st with buf := st.buf ++ [c] } = textOf st ++ [c] := by
        unfold textOf
        simp
      rw [h1, h2, List.append_assoc]
    | code ps =>
      rw [stepTok_textOf_code]
      have h1 : toksText (Tok.code ps :: ts) = toksText ts := rfl
      rw [h1]

/-- C1: for every input line, concatenating the text of all runs produced by
`parse_ansi_to_spans`, in order, is exactly the line with every `ESC [ params
m` control sequence removed (`SGR_RE.sub`, the stripping also used by
`visual_len`). -/
theorem C1_concat_runs : ∀ s : List Char,
    spansText (parse_ansi_to_spans s) = stripSGR s := by
  intro s
  unfold parse_ansi_to_spans stripSGR
  rw [flushSt_spansText, foldl_textOf]
  rfl

/-! ### Empty-input and no-control-sequence behavior -/

theorem tokenizeF_all_chr : ∀ (fuel : Nat) (s : List Char), s.length ≤ fuel →
    ((tokenizeF fuel s).all isChrTok) = true → tokenizeF fuel s = s.map Tok.chr := by
  intro fuel
  induction fuel with
  | zero =>
    intro s hf _
    have : s = [] := List.eq_nil_of_length_eq_zero (by omega)
    subst this
    rfl
  | succ m ih =>
    intro s hf hall
    match s with
    | [] => rfl
    | c :: rest =>
      simp only [List.length_cons] at hf
      simp only [tokenizeF] at hall ⊢
      by_cases hesc : c = '\x1b'
      · rw [if_pos hesc] at hall ⊢
        match rest with
        | [] =>
          dsimp only at hall ⊢
          simp only [List.all_cons, Bool.and_eq_true] at hall
          rw [ih [] (by omega) hall.2]
          rfl
        | r1 :: rest2 =>
          dsimp only at hall ⊢
          by_cases hbr : r1 = '['
          · rw [if_pos hbr] at hall ⊢
            rcases hp : paramSplit rest2 with _ | ⟨ps, r⟩
            · rw [hp] at hall
              dsimp only at hall ⊢
              simp only [List.all_cons, Bool.and_eq_true] at hall
              rw [ih (r1 :: rest2) (by omega) hall.2]
              rfl
            · rw [hp] at hall
              dsimp only at hall
              simp only [List.all_cons, Bool.and_eq_true, isChrTok] at hall
              exact absurd hall.1 (by simp)
          · rw [if_neg hbr] at hall ⊢
            simp only [List.all_cons, Bool.and_eq_true] at hall
            rw [ih (r1 :: rest2) (by omega) hall.2]
            rfl
      · rw [if_neg hesc] at hall ⊢
        simp only [List.all_cons, Bool.and_eq_true] at hall
        rw [ih rest (by omega) hall.2]
        rfl

theorem tokenize_noCtrl (s : List Char) (h : noCtrl s = true) :
    tokenize s = s.map Tok.chr :=
  tokenizeF_all_chr s.length s (le_refl _) h

theorem foldl_chr (l : List Char) : ∀ sp buf cur,
    (l.map Tok.chr).foldl stepTok ⟨sp, buf, cur⟩ = ⟨sp, buf ++ l, cur⟩ := by
  induction l with
  | nil => intro sp buf cur; simp
  | cons c t ih =>
    intro sp buf cur
    simp only [List.map_cons, List.foldl_cons]
    show (t.map Tok.chr).foldl stepTok ⟨sp, buf ++ [c], cur⟩ = _
    rw [ih]
    simp

/-- C9: the interpreter maps every nonempty line containing no control
sequence to exactly one run carrying the line verbatim with the default
style — but the empty line yields an empty run list, not a single run of
empty text. -/
theorem C9_amended_plain : (∀ s : List Char, s ≠ [] → noCtrl s = true →
    parse_ansi_to_spans s = [⟨⟨s⟩, {}⟩]) ∧ parse_ansi_to_spans [] = [] := by
  constructor
  · intro s hne hnc
    unfold parse_ansi_to_spans
    rw [tokenize_noCtrl s hnc, foldl_chr]
    unfold flushSt
    rw [if_neg (by simpa using hne)]
    simp
  · rfl

/-- C9 counterexample: the empty line yields zero runs, not one default run
of empty text as the claim requires for every line. -/
theorem C9_cex : parse_ansi_to_spans [] = [] ∧
    ([] : List Span) ≠ [⟨"", {}⟩] := ⟨rfl, by simp⟩

/-- Witness for C9 on a concrete plain line. -/
theorem C9_witness : parse_ansi_to_spans "ok".data = [⟨⟨"ok".data⟩, {}⟩] :=
  C9_amended_plain.1 "ok".data (by decide) (by decide)

/-! ### Malformed extended-color parameters -/

/-- C7: a `38`/`48` extended-color marker that is not followed by both the
palette selector `5` and a palette index is itself ignored, but processing
continues with the following parameters unchanged: they are interpreted as
independent codes rather than being skipped with the marker. -/
theorem C7_amended_marker : ∀ (st : PState) (rest : List Nat),
    extParam rest = none →
    applyCodes (38 :: rest) st = applyCodes rest st ∧
    applyCodes (48 :: rest) st = applyCodes rest st := by
  intro st rest h
  constructor
  · show applyCodesF (38 :: rest).length (38 :: rest) st = _
    simp only [List.length_cons]
    rw [applyCodesF]
    norm_num
    rw [h]
    rfl
  · show applyCodesF (48 :: rest).length (48 :: rest) st = _
    simp only [List.length_cons]
    rw [applyCodesF]
    norm_num
    rw [h]
    rfl

/-- C7 counterexample: in `ESC[38;1m`, the parameter `1` that positionally
follows the malformed extended-color marker still turns bold on, so the
run's style is not the default style the claim predicts. -/
theorem C7_cex :
    (parse_ansi_to_spans "\x1b[38;1mX".data).map Span.style = [{ bold := true }] ∧
    ({ bold := true } : Style) ≠ ({} : Style) := ⟨by decide, by simp⟩

/-- Witness for C7 at a concrete parameter list. -/
theorem C7_witness :
    applyCodes [38, 1] ⟨[], [], {}⟩ = applyCodes [1] ⟨[], [], {}⟩ :=
  (C7_amended_marker ⟨[], [], {}⟩ [1] (by decide)).1


/-! ### Indexing lemmas and the frame-store range contract -/

theorem nth?_none {α : Type} : ∀ (l : List α) (n : Nat), l.length ≤ n → nth? l n = none := by
  intro l
  induction l with
  | nil => intro n _; cases n <;> rfl
  | cons a t ih =>
    intro n h
    match n with
    | 0 => simp at h
    | k + 1 => exact ih k (by simp at h; omega)

theorem pyIndex_none_of_ge {α : Type} (l : List α) (i : Int) (h : (l.length : Int) ≤ i) :
    pyIndex l i = none := by
  unfold pyIndex
  rw [if_pos (by omega)]
  exact nth?_none l i.toNat (by omega)

theorem pyIndex_neg_one {α : Type} (l : List α) : pyIndex l (-1) = lastElem? l := by
  unfold pyIndex lastElem?
  rcases l with _ | ⟨a, t⟩
  · rfl
  · rw [if_neg (by omega), if_pos (by simp only [List.length_cons]; push_cast; omega)]
    have he : ((-1 : Int) + ((a :: t).length : Int)).toNat = (a :: t).length - 1 := by
      simp
    rw [he]

/-- C3: the store's `get` raises out-of-range for every `k` above
`length()`, in both modes — but `get 0` does not fail: by Python negative
indexing a split-mode store returns its last frame; the request-level
out-of-range rejection for every `k` outside `1..length()` (including `0`)
happens in the `api_frame` boundary check instead. -/
theorem C3_range_contract :
    (∀ (fs : FrameSource) (k : Int), (fs.length' : Int) < k → fs.get k = none) ∧
    (∀ fs : FrameSource, fs.indexed = false → fs.get 0 = lastElem? fs.frames) ∧
    (∀ (sess : Session) (src : FrameSource) (k : Int),
      sess.source = some src → (k < 1 ∨ (src.length' : Int) < k) →
      ∃ msg, api_frame sess k = .error (.badRequest msg)) := by
  refine ⟨?_, ?_, ?_⟩
  · intro fs k h
    unfold FrameSource.get
    split_ifs with hi
    · rw [pyIndex_none_of_ge]
      unfold FrameSource.length' at h
      rw [if_pos hi] at h
      omega
    · apply pyIndex_none_of_ge
      unfold FrameSource.length' at h
      rw [if_neg hi] at h
      omega
  · intro fs hidx
    unfold FrameSource.get
    rw [if_neg (by simp [hidx])]
    show pyIndex fs.frames (0 - 1) = _
    norm_num
    exact pyIndex_neg_one _
  · intro sess src k hs hk
    refine ⟨"Frame index out of range 1.." ++ toString src.length', ?_⟩
    unfold api_frame
    rw [hs]
    dsimp only
    rw [if_pos hk]

/-- C3 counterexample: on the concrete three-frame split store, `get 0`
succeeds and returns the last frame instead of failing out-of-range. -/
theorem C3_cex : srcW.get 0 = some hdrW3 ∧ some hdrW3 ≠ (none : Option String) :=
  ⟨by decide, by simp⟩

/-- Witness for C3 on the concrete store and session. -/
theorem C3_witness :
    srcW.get 4 = none ∧ srcW.get 0 = lastElem? srcW.frames ∧
    (∃ msg, api_frame sessW 0 = .error (.badRequest msg)) :=
  ⟨C3_range_contract.1 srcW 4 (by decide),
   C3_range_contract.2.1 srcW (by decide),
   C3_range_contract.2.2 sessW srcW 0 (by decide) (by decide)⟩

/-! ### Index-file loading -/

theorem pyTrunc_eq_floor (q : ℚ) (h : 0 ≤ q) : pyTrunc q = ⌊q⌋ := by
  unfold pyTrunc
  rw [Int.tdiv_eq_ediv (Rat.num_nonneg.mpr h) (by positivity)]
  exact Rat.floor_def.symm

theorem pyRound_via_floor (q : ℚ) :
    pyRound q =
      if q - ⌊q⌋ < 1/2 then ⌊q⌋
      else if 1/2 < q - ⌊q⌋ then ⌊q⌋ + 1
      else if ⌊q⌋ % 2 = 0 then ⌊q⌋ else ⌊q⌋ + 1 := by
  unfold pyRound
  rw [Int.fdiv_eq_ediv _ (by positivity), ← Rat.floor_def]

theorem fps29_q : (1000 : ℚ) / max (29/10 : ℚ) (1/10) = 10000/29 := by
  rw [max_eq_left (by norm_num : (1/10 : ℚ) ≤ 29/10)]
  norm_num

theorem fps29_floor : ⌊(10000/29 : ℚ)⌋ = 344 := by norm_num [Int.floor_eq_iff]

theorem fps29_trunc : pyTrunc (1000 / max (29/10 : ℚ) (1/10)) = 344 := by
  rw [fps29_q, pyTrunc_eq_floor _ (by norm_num), fps29_floor]

theorem fps29_round : pyRound (1000 / max (29/10 : ℚ) (1/10)) = 345 := by
  rw [fps29_q, pyRound_via_floor, fps29_floor]
  rw [if_neg (by norm_num), if_pos (by norm_num)]
  decide

theorem fps2_trunc : pyTrunc (1000 / max (2 : ℚ) (1/10)) = 500 := by
  rw [max_eq_left (by norm_num : (1/10 : ℚ) ≤ 2)]
  rw [show (1000 : ℚ) / 2 = 500 by norm_num]
  rw [pyTrunc_eq_floor _ (by norm_num)]
  norm_num

/-- C6: every successful animated export carries a per-frame duration of
`int(1000.0 / max(fps, 0.1))` milliseconds — truncation, not rounding — and
the 3-frame range at fps 2 yields exactly the three fixture frames with a
500 ms duration. -/
theorem C6_duration_trunc :
    (∀ (sess : Session) (cfg : ExportReq') (out : GifOut),
      api_export_gif sess cfg = .ok out →
      out.durationMs = pyTrunc (1000 / max cfg.fps (1/10)) ∧
      out.loop = 0 ∧ out.disposal = 2) ∧
    (api_export_gif sessW cfgW2 =
      .ok { frames := [hdrW1, hdrW2, hdrW3],
            durationMs := pyTrunc (1000 / max (2 : ℚ) (1/10)),
            loop := 0, disposal := 2 }) ∧
    pyTrunc (1000 / max (2 : ℚ) (1/10)) = 500 := by
  refine ⟨?_, ?_, fps2_trunc⟩
  · intro sess cfg out h
    unfold api_export_gif at h
    rcases hs : sess.source with _ | src
    · rw [hs] at h
      exact absurd h (by simp)
    · rw [hs] at h
      dsimp only at h
      split at h
      · exact absurd h (by simp)
      · exact absurd h (by simp)
      · injection h with h2
        rw [← h2]
        exact ⟨rfl, rfl, rfl⟩
  · rfl

/-- C6 counterexample: at fps 2.9 the export duration is 344 ms
(truncation), while `round(1000 / max(fps, 0.1))` is 345 ms. -/
theorem C6_cex :
    api_export_gif sessW cfgW29 =
      .ok { frames := [hdrW1, hdrW2, hdrW3],
            durationMs := pyTrunc (1000 / max (29/10 : ℚ) (1/10)),
            loop := 0, disposal := 2 } ∧
    pyTrunc (1000 / max (29/10 : ℚ) (1/10)) = 344 ∧
    pyRound (1000 / max (29/10 : ℚ) (1/10)) = 345 ∧ (344 : Int) ≠ 345 :=
  ⟨by rfl, fps29_trunc, fps29_round, by decide⟩

/-- Witness for C6 applying the duration law at the concrete export. -/
theorem C6_witness :
    ({ frames := [hdrW1, hdrW2, hdrW3],
       durationMs := pyTrunc (1000 / max (2 : ℚ) (1/10)),
       loop := 0, disposal := 2 } : GifOut).durationMs =
      pyTrunc (1000 / max cfgW2.fps (1/10)) :=
  (C6_duration_trunc.1 sessW cfgW2 _ C6_duration_trunc.2.1).1

/-! ### All-or-nothing load -/

/-- C8: whenever a load fails with the not-found or the zero-frames
bad-input condition, the previously loaded session context (frame source,
metrics, annotation lines) is returned unchanged: every mutation of the
session happens only after those checks have passed. -/
theorem C8_all_or_nothing :
    ∀ (fsys : FileSys) (sess : Session) (req : LoadReq') (m : String),
      ((api_load fsys sess req).2 = .error (HErr.notFound m) ∨
       (api_load fsys sess req).2 = .error (HErr.badRequest m)) →
      (api_load fsys sess req).1 = sess := by
  intro fsys sess req m h
  rcases hM : mkFrameSource fsys req.ans_path (resolveIndexPath fsys req) with e | src
  · cases e <;> simp [api_load, hM]
  · by_cases h0 : src.length' = 0
    · simp [api_load, hM, h0]
    · rcases hF : framesOf src with _ | frames
      · simp [api_load, hM, h0, hF]
      · rcases hA : req.agent_status_path with _ | p
        · refine absurd h ?_
          simp [api_load, hM, h0, hF, hA]
        · by_cases hp : p = ""
          · refine absurd h ?_
            simp [api_load, hM, h0, hF, hA, hp]
          · rcases hR : readTextE fsys p with e2 | txt
            · cases e2 <;> (refine absurd h ?_; simp [api_load, hM, h0, hF, hA, hp, hR])
            · refine absurd h ?_
              simp [api_load, hM, h0, hF, hA, hp, hR]

/-- Witness for C8: loading a missing file leaves the session unchanged. -/
theorem C8_witness : (api_load fsysEmpty sess0 reqMissing).1 = sess0 :=
  C8_all_or_nothing fsysEmpty sess0 reqMissing "File not found: missing.ans" (Or.inl rfl)

end Webviz
